import Mathlib

/-!
# Verification of the evote-backend vote-issuance-and-submission pipeline

Shallow embedding of the vote pipeline of the `evote-backend` repository:

* `src/controllers/voteController.js` — `issueToken`, `submitVote`;
* `src/controllers/authController.js` — the windowed attempt counters of
  `sendOtp` and `recordLoginFailure`;
* `src/services/voteService.js` — `isElectionOpen`;
* `src/lib/mongo.js` — `withTransaction` (abort discards the writes).

MongoDB collections are embedded as Lean lists of documents; `updateOne`
becomes `updateFirst` (update the first document matching the filter,
reporting the matched count), `insertOne` becomes list append, timestamps
are naturals (milliseconds), and the random values the controllers draw
(`crypto.randomUUID`, `crypto.randomBytes`) are explicit parameters.
-/

namespace EVote

/-- `updateOne`-style conditional update: rewrite the first element
satisfying `p` with `f`, and report the matched count (0 or 1). -/
def updateFirst (p : α → Bool) (f : α → α) : List α → List α × Nat
  | [] => ([], 0)
  | a :: as =>
    if p a then (f a :: as, 1)
    else
      let r := updateFirst p f as
      (a :: r.1, r.2)

theorem updateFirst_of_find?_none (p : α → Bool) (f : α → α) (l : List α)
    (h : l.find? p = none) : updateFirst p f l = (l, 0) := by
  induction l with
  | nil => rfl
  | cons a as ih =>
    rw [List.find?_cons] at h
    cases hpa : p a with
    | true => simp [hpa] at h
    | false =>
      simp only [hpa] at h
      simp [updateFirst, hpa, ih h]

theorem updateFirst_snd_of_find?_some (p : α → Bool) (f : α → α) (l : List α)
    (x : α) (h : l.find? p = some x) : (updateFirst p f l).2 = 1 := by
  induction l with
  | nil => simp [List.find?] at h
  | cons a as ih =>
    rw [List.find?_cons] at h
    cases hpa : p a with
    | true => simp [updateFirst, hpa]
    | false =>
      simp only [hpa] at h
      simp [updateFirst, hpa, ih h]

theorem updateFirst_snd_of_mem (p : α → Bool) (f : α → α) (l : List α) (a : α)
    (ha : a ∈ l) (hpa : p a = true) : (updateFirst p f l).2 = 1 := by
  induction l with
  | nil => simp at ha
  | cons b bs ih =>
    cases hpb : p b with
    | true => simp [updateFirst, hpb]
    | false =>
      rcases List.mem_cons.mp ha with h | h
      · subst h; rw [hpa] at hpb; cases hpb
      · simp [updateFirst, hpb, ih h]

theorem find?_updateFirst (p : α → Bool) (f : α → α) (l : List α) (x : α)
    (h : l.find? p = some x) (hf : p (f x) = true) :
    (updateFirst p f l).1.find? p = some (f x) := by
  induction l with
  | nil => simp [List.find?] at h
  | cons a as ih =>
    rw [List.find?_cons] at h
    cases hpa : p a with
    | true =>
      simp only [hpa, Option.some.injEq] at h
      subst h
      simp [updateFirst, hpa, List.find?_cons, hf]
    | false =>
      simp only [hpa] at h
      simp [updateFirst, hpa, List.find?_cons, ih h]

theorem mem_updateFirst (p : α → Bool) (f : α → α) (l : List α) (b : α)
    (hb : b ∈ (updateFirst p f l).1) :
    b ∈ l ∨ ∃ a, a ∈ l ∧ p a = true ∧ b = f a := by
  induction l with
  | nil => simp [updateFirst] at hb
  | cons a as ih =>
    cases hpa : p a with
    | true =>
      simp only [updateFirst, hpa, if_true] at hb
      rcases List.mem_cons.mp hb with h | h
      · exact Or.inr ⟨a, List.mem_cons_self a as, hpa, h⟩
      · exact Or.inl (List.mem_cons_of_mem a h)
    | false =>
      simp only [updateFirst, hpa, if_false] at hb
      rcases List.mem_cons.mp hb with h | h
      · exact Or.inl (h ▸ List.mem_cons_self a as)
      · rcases ih h with h' | ⟨c, hc, hpc, hbc⟩
        · exact Or.inl (List.mem_cons_of_mem a h')
        · exact Or.inr ⟨c, List.mem_cons_of_mem a hc, hpc, hbc⟩

theorem find?_append_of_none (p : α → Bool) (l₁ l₂ : List α)
    (h : l₁.find? p = none) : (l₁ ++ l₂).find? p = l₂.find? p := by
  induction l₁ with
  | nil => rfl
  | cons a as ih =>
    rw [List.find?_cons] at h
    cases hpa : p a with
    | true => simp [hpa] at h
    | false =>
      simp only [hpa] at h
      simp [List.find?_cons, hpa, ih h]

/-! ## Data model

Documents of the `voters`, `votingTokens`, `candidates`, `votes` and
`elections` collections, with the fields the vote pipeline reads or writes.
Timestamps are naturals (milliseconds since the epoch); a field the code
guards with a truthiness check before using is an `Option`. -/

/-- A document of the `voters` collection. -/
structure Voter where
  voterId : String
  status : String
  hasVoted : Bool
  updatedAt : Nat
deriving Repr, DecidableEq

/-- A document of the `votingTokens` collection. `nonce` embeds `meta.nonce`
(`null`/absent when the document has no `meta.nonce`). -/
structure TokenDoc where
  _id : Nat
  tokenId : String
  electionId : String
  spent : Bool
  expiresAt : Option Nat
  createdAt : Nat
  updatedAt : Nat
  version : Nat
  nonce : Option String
deriving Repr, DecidableEq

/-- A document of the `candidates` collection. -/
structure Candidate where
  electionId : String
  candidateId : String
  status : String
deriving Repr, DecidableEq

/-- A document of the `votes` collection, as `submitVote` inserts it:
`{ electionId, candidateId, createdAt, serverSig, version: 1, meta: {} }`.
`meta` is the inserted empty object. -/
structure VoteDoc where
  electionId : String
  candidateId : String
  createdAt : Nat
  serverSig : String
  version : Nat
  meta : Unit
deriving Repr, DecidableEq

/-- A document of the `elections` collection. -/
structure Election where
  electionId : String
  status : String
deriving Repr, DecidableEq

/-- The collections the vote pipeline touches. -/
structure DB where
  voters : List Voter
  votingTokens : List TokenDoc
  candidates : List Candidate
  votes : List VoteDoc
  elections : List Election
deriving Repr, DecidableEq

/-- The error codes `issueToken` can respond with. -/
inductive IssueError where
  | ELECTION_NOT_OPEN
  | VOTER_NOT_FOUND
  | VOTER_INACTIVE
  | ALREADY_VOTED
deriving Repr, DecidableEq

/-- The error codes thrown inside `submitVote`'s transaction body. -/
inductive SubmitError where
  | VOTER_NOT_FOUND
  | VOTER_INACTIVE
  | ALREADY_VOTED
  | INVALID_VOTE_TOKEN
  | TOKEN_ALREADY_USED
  | TOKEN_EXPIRED
  | TOKEN_NONCE_MISMATCH
  | INVALID_CANDIDATE
deriving Repr, DecidableEq

/-- The error of an `Except`, `none` on success. -/
def errorOf? : Except ε α → Option ε
  | .error e => some e
  | .ok _ => none

/-! ## Election gate — `voteService.isElectionOpen` -/

/-- `src/services/voteService.js` `isElectionOpen`: no document for the
election defaults to open; otherwise open iff `status === 'open'`. -/
def isElectionOpen (elections : List Election) (electionId : String) : Bool :=
  match elections.find? (fun d => d.electionId == electionId) with
  | none => true
  | some doc => doc.status == "open"

/-! ## Token issuance — `voteController.issueToken` -/

/-- `const TOKEN_TTL_MS = 5 * 60 * 1000` (5 minutes). -/
def TOKEN_TTL_MS : Nat := 5 * 60 * 1000

/-- The success payload of `issueToken`: `{ tokenId, nonce, expiresAt }`. -/
structure IssueOk where
  tokenId : String
  nonce : String
  expiresAt : Nat
deriving Repr, DecidableEq

/-- The `tokenDoc` literal `issueToken` inserts: carries no voter
identifier; `freshId` stands for the inserted document's new `_id`. -/
def mkTokenDoc (electionId : String) (now : Nat) (tokenId nonce : String)
    (freshId : Nat) : TokenDoc :=
  { _id := freshId
    tokenId := tokenId
    electionId := electionId
    spent := false
    expiresAt := some (now + TOKEN_TTL_MS)
    createdAt := now
    updatedAt := now
    version := 1
    nonce := some nonce }

/-- `voteController.issueToken`, after the auth guard: check the election
gate, load and check the voter, insert one fresh voting token and return
`{ tokenId, nonce, expiresAt }`. `freshTokenId` and `freshNonce` stand for
`crypto.randomUUID()` and `crypto.randomBytes(16)`. -/
def issueToken (db : DB) (voterId electionId : String) (now : Nat)
    (freshTokenId freshNonce : String) (freshId : Nat) :
    Except IssueError (DB × IssueOk) :=
  if !isElectionOpen db.elections electionId then
    .error .ELECTION_NOT_OPEN
  else
    match db.voters.find? (fun v => v.voterId == voterId) with
    | none => .error .VOTER_NOT_FOUND
    | some voter =>
      if voter.status != "active" then .error .VOTER_INACTIVE
      else if voter.hasVoted then .error .ALREADY_VOTED
      else
        .ok ({ db with votingTokens :=
                 db.votingTokens ++ [mkTokenDoc electionId now freshTokenId freshNonce freshId] },
             { tokenId := freshTokenId, nonce := freshNonce,
               expiresAt := now + TOKEN_TTL_MS })

/-! ## Vote submission — `voteController.submitVote`

The transaction body (`withTransaction` callback) is split into its read
phase (`submitValidate`, steps 1–3 of the source: load and check the voter,
load and check the token, validate the candidate) and its write phase
(`submitMutate`, steps 4–6: conditionally spend the token, insert the vote,
mark the voter). The write phase takes the collections it writes and the
`_id` of the token document the read phase found; running both phases on
the same snapshot gives the sequential behaviour (`submitVoteTx`), and
`withTransaction`'s abort-on-throw discards every write of a failing body
(`submitVote`). -/

/-- The success payload of the transaction: `{ electionId, candidateId }`. -/
structure SubmitOk where
  electionId : String
  candidateId : String
deriving Repr, DecidableEq

/-- `tokenDoc.expiresAt && tokenDoc.expiresAt <= now`: an absent
`expiresAt` is falsy, so it never counts as expired. -/
def tokenExpired (expiresAt : Option Nat) (now : Nat) : Bool :=
  match expiresAt with
  | none => false
  | some e => e ≤ now

/-- The nonce check: only performed when the caller supplied a nonce
(`nonce != null`); fails when the token has no stored `meta.nonce`, when the
stored nonce is the (falsy) empty string, or when the two differ. -/
def nonceMismatch (nonce : Option String) (tokenNonce : Option String) : Bool :=
  match nonce with
  | none => false
  | some n =>
    match tokenNonce with
    | none => true
    | some t => t == "" || n != t

/-- Steps 1–3 of the transaction body: ordered validation. Returns the
`_id` of the token document it found. -/
def submitValidate (voters : List Voter) (votingTokens : List TokenDoc)
    (candidates : List Candidate) (voterId tokenId electionId candidateId : String)
    (nonce : Option String) (now : Nat) : Except SubmitError Nat :=
  match voters.find? (fun v => v.voterId == voterId) with
  | none => .error .VOTER_NOT_FOUND
  | some voter =>
    if voter.status != "active" then .error .VOTER_INACTIVE
    else if voter.hasVoted then .error .ALREADY_VOTED
    else
      match votingTokens.find? (fun t =>
          t.tokenId == tokenId && t.electionId == electionId) with
      | none => .error .INVALID_VOTE_TOKEN
      | some tokenDoc =>
        if tokenDoc.spent then .error .TOKEN_ALREADY_USED
        else if tokenExpired tokenDoc.expiresAt now then .error .TOKEN_EXPIRED
        else if nonceMismatch nonce tokenDoc.nonce then .error .TOKEN_NONCE_MISMATCH
        else
          match candidates.find? (fun c =>
              c.electionId == electionId && c.candidateId == candidateId &&
              c.status == "active") with
          | none => .error .INVALID_CANDIDATE
          | some _ => .ok tokenDoc._id

/-- The document `votes.insertOne` receives (minus the collection-assigned
`_id`): built from the election, the candidate, the clock and the random
server signature only — no voter and no token identifier. -/
def mkVoteDoc (electionId candidateId : String) (now : Nat) (serverSig : String) :
    VoteDoc :=
  { electionId := electionId
    candidateId := candidateId
    createdAt := now
    serverSig := serverSig
    version := 1
    meta := () }

/-- The field names of the document `submitVote` inserts into the `votes`
collection: `votes.insertOne({ electionId, candidateId, createdAt,
serverSig, version: 1, meta: {} })`. -/
def voteInsertKeys : List String :=
  ["electionId", "candidateId", "createdAt", "serverSig", "version", "meta"]

/-- Steps 4–6 of the transaction body: conditionally mark the token spent
(`updateOne({ _id: tokenDoc._id, spent: false }, { $set: { spent: true,
updatedAt: now } })`, aborting with `TOKEN_ALREADY_USED` on a matched count
of 0), insert the vote document, and mark the voter as having voted
(aborting with `VOTER_NOT_FOUND` on a matched count of 0). Returns the
written collections `(voters, votingTokens, votes)` and the result. -/
def submitMutate (voters : List Voter) (votingTokens : List TokenDoc)
    (votes : List VoteDoc) (voterId : String) (tokenDocId : Nat)
    (electionId candidateId : String) (serverSig : String) (now : Nat) :
    Except SubmitError ((List Voter × List TokenDoc × List VoteDoc) × SubmitOk) :=
  let updateTokenResult := updateFirst (fun t => t._id == tokenDocId && !t.spent)
      (fun t => { t with spent := true, updatedAt := now }) votingTokens
  if updateTokenResult.2 == 0 then .error .TOKEN_ALREADY_USED
  else
    let votes' := votes ++ [mkVoteDoc electionId candidateId now serverSig]
    let updateVoterResult := updateFirst (fun v => v.voterId == voterId)
        (fun v => { v with hasVoted := true, updatedAt := now }) voters
    if updateVoterResult.2 == 0 then .error .VOTER_NOT_FOUND
    else .ok ((updateVoterResult.1, updateTokenResult.1, votes'),
              { electionId := electionId, candidateId := candidateId })

/-- The whole transaction body run on one snapshot: validate, then mutate. -/
def submitVoteTx (db : DB) (voterId tokenId electionId candidateId : String)
    (nonce : Option String) (serverSig : String) (now : Nat) :
    Except SubmitError (DB × SubmitOk) :=
  match submitValidate db.voters db.votingTokens db.candidates
      voterId tokenId electionId candidateId nonce now with
  | .error e => .error e
  | .ok tokenDocId =>
    match submitMutate db.voters db.votingTokens db.votes
        voterId tokenDocId electionId candidateId serverSig now with
    | .error e => .error e
    | .ok (cols, r) =>
      .ok ({ db with voters := cols.1, votingTokens := cols.2.1, votes := cols.2.2 }, r)

/-- `submitVote` as observed by the caller: `withTransaction` commits the
body's writes on success and discards them all when the body throws
(`session.withTransaction` aborts, `src/lib/mongo.js`), so a failing call
leaves every collection as it was. -/
def submitVote (db : DB) (voterId tokenId electionId candidateId : String)
    (nonce : Option String) (serverSig : String) (now : Nat) :
    DB × Except SubmitError SubmitOk :=
  match submitVoteTx db voterId tokenId electionId candidateId nonce serverSig now with
  | .error e => (db, .error e)
  | .ok (db', r) => (db', .ok r)

/-! ## Windowed attempt counters — `authController`

`sendOtp` throttles OTP requests per `phoneHash` (fixed 1-hour window,
at most 10 per window); `recordLoginFailure` counts failed logins per
`voterId` (15-minute window). Both reset the row to `count = 1` with a
fresh window via an upsert when the row is absent or its window lapsed,
and otherwise `$inc` the count by 1. -/

/-- `const OTP_WINDOW_MS = 60 * 60 * 1000` (1 hour per phoneHash). -/
def OTP_WINDOW_MS : Nat := 60 * 60 * 1000

/-- `const OTP_MAX_PER_WINDOW = 10`. -/
def OTP_MAX_PER_WINDOW : Nat := 10

/-- `const LOGIN_WINDOW_MS = 15 * 60 * 1000`. -/
def LOGIN_WINDOW_MS : Nat := 15 * 60 * 1000

/-- `const LOGIN_MAX_FAILED = 5`. -/
def LOGIN_MAX_FAILED : Nat := 5

/-- A document of the `otp_attempts` collection. -/
structure OtpAttemptDoc where
  _id : Nat
  phoneHash : String
  count : Nat
  windowEndsAt : Option Nat
  createdAt : Nat
deriving Repr, DecidableEq

/-- A document of the `login_attempts` collection. -/
structure LoginAttemptDoc where
  _id : Nat
  voterId : String
  count : Nat
  windowEndsAt : Option Nat
  createdAt : Nat
deriving Repr, DecidableEq

/-- What `sendOtp` does after recording the attempt: `rateLimited` is the
early `429 OTP_RATE_LIMITED` return, on which `otpService.sendOtp` is never
reached; `sent` is the path that generates and sends an OTP. -/
inductive OtpSendOutcome where
  | rateLimited
  | sent
deriving Repr, DecidableEq

/-- The reset upsert of `sendOtp`:
`otpAttempts.updateOne({ phoneHash }, { $set: { phoneHash, count: 1,
windowEndsAt, createdAt: now, meta: {} } }, { upsert: true })` with
`windowEndsAt = now + OTP_WINDOW_MS`; `freshId` stands for the `_id` a
fresh insert receives. -/
def otpReset (otpAttempts : List OtpAttemptDoc) (phoneHash : String)
    (now freshId : Nat) : List OtpAttemptDoc :=
  let r := updateFirst (fun d => d.phoneHash == phoneHash)
      (fun d => { d with
          phoneHash := phoneHash
          count := 1
          windowEndsAt := some (now + OTP_WINDOW_MS)
          createdAt := now })
      otpAttempts
  if r.2 == 0 then
    otpAttempts ++ [{ _id := freshId
                      phoneHash := phoneHash
                      count := 1
                      windowEndsAt := some (now + OTP_WINDOW_MS)
                      createdAt := now }]
  else r.1

/-- The attempt-counting core of `authController.sendOtp`: look up the row
for `phoneHash`; inside a live window (`windowEndsAt > now`) either reject
with `OTP_RATE_LIMITED` (when `count >= OTP_MAX_PER_WINDOW`, no write, no
OTP) or `$inc` the count by 1 (`updateOne({ _id: existing._id },
{ $inc: { count: 1 } })`); otherwise reset the row and send. -/
def sendOtp (otpAttempts : List OtpAttemptDoc) (phoneHash : String)
    (now freshId : Nat) : List OtpAttemptDoc × OtpSendOutcome :=
  match otpAttempts.find? (fun d => d.phoneHash == phoneHash) with
  | some existing =>
    match existing.windowEndsAt with
    | some w =>
      if now < w then
        if OTP_MAX_PER_WINDOW ≤ existing.count then
          (otpAttempts, .rateLimited)
        else
          ((updateFirst (fun d => d._id == existing._id)
              (fun d => { d with count := d.count + 1 }) otpAttempts).1, .sent)
      else (otpReset otpAttempts phoneHash now freshId, .sent)
    | none => (otpReset otpAttempts phoneHash now freshId, .sent)
  | none => (otpReset otpAttempts phoneHash now freshId, .sent)

/-- `authController.recordLoginFailure` with its caller's read of
`login_attempts.findOne({ voterId })` inlined (the caller reads the row
and passes it in): reset the row to `count = 1` with a fresh window when it
is absent, has no `windowEndsAt`, or its window lapsed
(`windowEndsAt <= now`); otherwise `$inc` its count by 1
(`updateOne({ voterId }, { $inc: { count: 1 } })`). -/
def recordLoginFailure (loginAttempts : List LoginAttemptDoc) (voterId : String)
    (now freshId : Nat) : List LoginAttemptDoc :=
  let attemptDoc := loginAttempts.find? (fun d => d.voterId == voterId)
  let lapsed : Bool :=
    match attemptDoc with
    | none => true
    | some d =>
      match d.windowEndsAt with
      | none => true
      | some w => w ≤ now
  if lapsed then
    let r := updateFirst (fun d => d.voterId == voterId)
        (fun d => { d with
            voterId := voterId
            count := 1
            windowEndsAt := some (now + LOGIN_WINDOW_MS)
            createdAt := now })
        loginAttempts
    if r.2 == 0 then
      loginAttempts ++ [{ _id := freshId
                          voterId := voterId
                          count := 1
                          windowEndsAt := some (now + LOGIN_WINDOW_MS)
                          createdAt := now }]
    else r.1
  else
    (updateFirst (fun d => d.voterId == voterId)
        (fun d => { d with count := d.count + 1 }) loginAttempts).1

/-! ## Spec-side validation order

`submitFirstFailure` and `issueFirstFailure` transcribe the ordered
validation the spec claims — first failing check wins, each check a fixed
failure kind — as standalone functions, to be compared with the code's
behaviour. -/

/-- The first failing check of the claimed `submit` validation order:
voter exists / active / has not voted, then token exists for
`(tokenId, electionId)`, then token unspent, then token unexpired, then
the optional nonce matches, then the candidate is active in the election.
`none` when every check passes. -/
def submitFirstFailure (voters : List Voter) (votingTokens : List TokenDoc)
    (candidates : List Candidate) (voterId tokenId electionId candidateId : String)
    (nonce : Option String) (now : Nat) : Option SubmitError :=
  match voters.find? (fun v => v.voterId == voterId) with
  | none => some .VOTER_NOT_FOUND
  | some voter =>
    if voter.status != "active" then some .VOTER_INACTIVE
    else if voter.hasVoted then some .ALREADY_VOTED
    else
      match votingTokens.find? (fun t =>
          t.tokenId == tokenId && t.electionId == electionId) with
      | none => some .INVALID_VOTE_TOKEN
      | some tokenDoc =>
        if tokenDoc.spent then some .TOKEN_ALREADY_USED
        else if tokenExpired tokenDoc.expiresAt now then some .TOKEN_EXPIRED
        else if nonceMismatch nonce tokenDoc.nonce then some .TOKEN_NONCE_MISMATCH
        else if (candidates.find? (fun c =>
            c.electionId == electionId && c.candidateId == candidateId &&
            c.status == "active")).isNone then
          some .INVALID_CANDIDATE
        else none

/-- The first failing check of the claimed `issue` precondition order:
election open, then voter exists / active, then voter has not voted.
`none` when every check passes. -/
def issueFirstFailure (db : DB) (voterId electionId : String) : Option IssueError :=
  if !isElectionOpen db.elections electionId then some .ELECTION_NOT_OPEN
  else
    match db.voters.find? (fun v => v.voterId == voterId) with
    | none => some .VOTER_NOT_FOUND
    | some voter =>
      if voter.status != "active" then some .VOTER_INACTIVE
      else if voter.hasVoted then some .ALREADY_VOTED
      else none

/-! ## Inversion and bridging lemmas -/

/-- Inversion of a successful read phase: every check passed, and the
returned id is the found token document's `_id`. -/
theorem submitValidate_ok_inv
    (voters : List Voter) (votingTokens : List TokenDoc) (candidates : List Candidate)
    (voterId tokenId electionId candidateId : String) (nonce : Option String)
    (now : Nat) (tid : Nat)
    (h : submitValidate voters votingTokens candidates voterId tokenId electionId
        candidateId nonce now = .ok tid) :
    ∃ v t c, voters.find? (fun w => w.voterId == voterId) = some v ∧
      v.status = "active" ∧ v.hasVoted = false ∧
      votingTokens.find? (fun u => u.tokenId == tokenId && u.electionId == electionId)
        = some t ∧
      t.spent = false ∧ tokenExpired t.expiresAt now = false ∧
      nonceMismatch nonce t.nonce = false ∧
      candidates.find? (fun d => d.electionId == electionId &&
        d.candidateId == candidateId && d.status == "active") = some c ∧
      tid = t._id := by
  unfold submitValidate at h
  repeat' split at h
  all_goals simp_all

/-- The read phase reports exactly the first failing check of the claimed
order. -/
theorem submitValidate_eq_firstFailure
    (voters : List Voter) (votingTokens : List TokenDoc) (candidates : List Candidate)
    (voterId tokenId electionId candidateId : String) (nonce : Option String)
    (now : Nat) :
    errorOf? (submitValidate voters votingTokens candidates voterId tokenId
        electionId candidateId nonce now)
      = submitFirstFailure voters votingTokens candidates voterId tokenId
          electionId candidateId nonce now := by
  unfold submitValidate submitFirstFailure
  repeat' split
  all_goals simp_all [errorOf?]

/-- When every read-phase check passed on a snapshot, the write phase on
that same snapshot cannot miss: both conditional updates match, so the
transaction commits with the updated collections. -/
theorem submitMutate_ok_of_validate_ok
    (voters : List Voter) (votingTokens : List TokenDoc) (candidates : List Candidate)
    (votes : List VoteDoc) (voterId tokenId electionId candidateId : String)
    (nonce : Option String) (serverSig : String) (now : Nat) (tid : Nat)
    (h : submitValidate voters votingTokens candidates voterId tokenId electionId
        candidateId nonce now = .ok tid) :
    submitMutate voters votingTokens votes voterId tid electionId candidateId
        serverSig now
      = .ok (((updateFirst (fun v => v.voterId == voterId)
                (fun v => { v with hasVoted := true, updatedAt := now }) voters).1,
              (updateFirst (fun t => t._id == tid && !t.spent)
                (fun t => { t with spent := true, updatedAt := now }) votingTokens).1,
              votes ++ [mkVoteDoc electionId candidateId now serverSig]),
             { electionId := electionId, candidateId := candidateId }) := by
  obtain ⟨v, t, c, hv, hvs, hvv, ht, hts, hte, htn, hc, htid⟩ :=
    submitValidate_ok_inv voters votingTokens candidates voterId tokenId electionId
      candidateId nonce now tid h
  have hvmem : v ∈ voters := List.mem_of_find?_eq_some hv
  have hvp := List.find?_some hv
  have htmem : t ∈ votingTokens := List.mem_of_find?_eq_some ht
  have htp : (t._id == tid && !t.spent) = true := by
    simp [htid, hts]
  have h1 : (updateFirst (fun t => t._id == tid && !t.spent)
      (fun t => { t with spent := true, updatedAt := now }) votingTokens).2 = 1 :=
    updateFirst_snd_of_mem _ _ _ t htmem htp
  have h2 : (updateFirst (fun v => v.voterId == voterId)
      (fun v => { v with hasVoted := true, updatedAt := now }) voters).2 = 1 :=
    updateFirst_snd_of_mem _ _ _ v hvmem hvp
  unfold submitMutate
  simp [h1, h2]

/-- On a snapshot where every check of `submit` passes, the whole call
commits: the found token is conditionally marked spent, the vote document
is appended, the found voter is marked as having voted, and the call
returns `{ electionId, candidateId }`. -/
theorem submitVote_ok_of_valid
    (db : DB) (voterId tokenId electionId candidateId : String)
    (nonce : Option String) (serverSig : String) (now : Nat)
    (v : Voter) (t : TokenDoc) (c : Candidate)
    (hv : db.voters.find? (fun w => w.voterId == voterId) = some v)
    (hvs : v.status = "active") (hvv : v.hasVoted = false)
    (ht : db.votingTokens.find? (fun u => u.tokenId == tokenId &&
        u.electionId == electionId) = some t)
    (hts : t.spent = false) (hte : tokenExpired t.expiresAt now = false)
    (htn : nonceMismatch nonce t.nonce = false)
    (hc : db.candidates.find? (fun d => d.electionId == electionId &&
        d.candidateId == candidateId && d.status == "active") = some c) :
    submitVote db voterId tokenId electionId candidateId nonce serverSig now
      = ({ db with
            voters := (updateFirst (fun w => w.voterId == voterId)
              (fun w => { w with hasVoted := true, updatedAt := now }) db.voters).1
            votingTokens := (updateFirst (fun u => u._id == t._id && !u.spent)
              (fun u => { u with spent := true, updatedAt := now }) db.votingTokens).1
            votes := db.votes ++ [mkVoteDoc electionId candidateId now serverSig] },
         .ok { electionId := electionId, candidateId := candidateId }) := by
  have hval : submitValidate db.voters db.votingTokens db.candidates voterId tokenId
      electionId candidateId nonce now = .ok t._id := by
    unfold submitValidate
    simp [hv, hvs, hvv, ht, hts, hte, htn, hc]
  have hm := submitMutate_ok_of_validate_ok db.voters db.votingTokens db.candidates
    db.votes voterId tokenId electionId candidateId nonce serverSig now t._id hval
  unfold submitVote submitVoteTx
  simp [hval, hm]

/-! ## Concrete sample states (used by witnesses and counterexamples) -/

/-- An empty database. -/
def emptyDb : DB := { voters := [], votingTokens := [], candidates := [],
                      votes := [], elections := [] }

/-- One active voter who has not voted. -/
def sampleVoter : Voter :=
  { voterId := "v1", status := "active", hasVoted := false, updatedAt := 0 }

/-- One unspent token for election `e1`, expiring at 1000. -/
def sampleToken : TokenDoc :=
  { _id := 1, tokenId := "t1", electionId := "e1", spent := false,
    expiresAt := some 1000, createdAt := 0, updatedAt := 0, version := 1,
    nonce := some "n1" }

/-- One active candidate of election `e1`. -/
def sampleCandidate : Candidate :=
  { electionId := "e1", candidateId := "c1", status := "active" }

/-- A database on which a `submit` of `(v1, t1, e1, c1)` is valid. -/
def sampleDb : DB :=
  { voters := [sampleVoter], votingTokens := [sampleToken],
    candidates := [sampleCandidate], votes := [], elections := [] }

/-- `sampleDb` with the voter already marked as having voted. -/
def votedDb : DB :=
  { sampleDb with voters :=
      [{ voterId := "v1", status := "active", hasVoted := true, updatedAt := 0 }] }

/-- `votedDb` with election `e1` explicitly closed. -/
def votedClosedDb : DB :=
  { votedDb with elections := [{ electionId := "e1", status := "closed" }] }

/-- `sampleDb` with election `e1` explicitly closed. -/
def closedElectionDb : DB :=
  { sampleDb with elections := [{ electionId := "e1", status := "closed" }] }

/-! ## The claims -/

/-- Claim C4: `submit` evaluates its validations in a fixed order — voter
exists / active / has not voted (`VOTER_NOT_FOUND`, `VOTER_INACTIVE`,
`ALREADY_VOTED`), then token exists for `(tokenId, electionId)`
(`INVALID_VOTE_TOKEN`), then token unspent (`TOKEN_ALREADY_USED`), then
token unexpired (`TOKEN_EXPIRED`), then optional nonce equality
(`TOKEN_NONCE_MISMATCH`), then candidate active (`INVALID_CANDIDATE`) —
and for every input the reported failure kind is exactly the first failing
check's kind, never coerced into a different kind (in particular the write
phase never changes the kind of a call whose checks all passed). -/
theorem submit_first_failing_check
    (db : DB) (voterId tokenId electionId candidateId : String)
    (nonce : Option String) (serverSig : String) (now : Nat) :
    errorOf? (submitVote db voterId tokenId electionId candidateId nonce serverSig now).2
      = submitFirstFailure db.voters db.votingTokens db.candidates voterId tokenId
          electionId candidateId nonce now := by
  rw [← submitValidate_eq_firstFailure]
  unfold submitVote submitVoteTx
  cases h : submitValidate db.voters db.votingTokens db.candidates voterId tokenId
      electionId candidateId nonce now with
  | error e => simp [errorOf?]
  | ok tid =>
    have hm := submitMutate_ok_of_validate_ok db.voters db.votingTokens db.candidates
      db.votes voterId tokenId electionId candidateId nonce serverSig now tid h
    simp [hm, errorOf?]

/-- Claim C5: `issue` checks its preconditions in order, first failure wins
— election open (`ELECTION_NOT_OPEN`), voter exists and active
(`VOTER_NOT_FOUND` / `VOTER_INACTIVE`), voter has not voted
(`ALREADY_VOTED`) — and on success appends exactly one new voting-token
row with `spent = false` and `expiresAt = now + TOKEN_TTL_MS` (5 minutes),
mutates no existing row, records no association between the token and the
voter (`mkTokenDoc` takes no voter argument), and returns
`{ tokenId, nonce, expiresAt }`. -/
theorem issueToken_contract (db : DB) (voterId electionId : String) (now : Nat)
    (freshTokenId freshNonce : String) (freshId : Nat) :
    errorOf? (issueToken db voterId electionId now freshTokenId freshNonce freshId)
      = issueFirstFailure db voterId electionId ∧
    (∀ db' r,
      issueToken db voterId electionId now freshTokenId freshNonce freshId
        = .ok (db', r) →
      db'.voters = db.voters ∧ db'.candidates = db.candidates ∧
      db'.votes = db.votes ∧ db'.elections = db.elections ∧
      db'.votingTokens = db.votingTokens ++
        [mkTokenDoc electionId now freshTokenId freshNonce freshId] ∧
      (mkTokenDoc electionId now freshTokenId freshNonce freshId).spent = false ∧
      (mkTokenDoc electionId now freshTokenId freshNonce freshId).expiresAt
        = some (now + 5 * 60 * 1000) ∧
      r = { tokenId := freshTokenId, nonce := freshNonce,
            expiresAt := now + 5 * 60 * 1000 }) := by
  constructor
  · unfold issueToken issueFirstFailure
    repeat' split
    all_goals simp_all [errorOf?]
  · intro db' r hok
    unfold issueToken at hok
    repeat' split at hok
    all_goals simp_all [mkTokenDoc, TOKEN_TTL_MS]
    obtain ⟨h1, h2⟩ := hok
    subst h1 h2
    simp

/-- Claim C1, as stated, fails on the code: calling `submit` twice
sequentially with identical valid arguments makes the second call fail with
`ALREADY_VOTED` (the voter's `hasVoted` flag — set by the first call — is
checked before the token's spent flag), not with `TOKEN_ALREADY_USED`.
Concrete run on `sampleDb`. -/
theorem submit_twice_claim_cex :
    (submitVote sampleDb "v1" "t1" "e1" "c1" (some "n1") "s1" 5).2
      = .ok { electionId := "e1", candidateId := "c1" } ∧
    (submitVote (submitVote sampleDb "v1" "t1" "e1" "c1" (some "n1") "s1" 5).1
        "v1" "t1" "e1" "c1" (some "n1") "s2" 6).2
      = .error .ALREADY_VOTED ∧
    SubmitError.ALREADY_VOTED ≠ SubmitError.TOKEN_ALREADY_USED :=
  ⟨rfl, rfl, by decide⟩

/-- Claim C1 (amended): calling `submit` twice sequentially with identical
valid arguments yields: the first call succeeds, returning
`{ electionId, candidateId }`; the second call fails with `ALREADY_VOTED`
— the voter's `hasVoted` flag, set by the first call, is the check that
fires, coming before the token checks. The token-spend write conditions on
`(_id, spent == false)`, and a matched count of 0 at that write aborts
with `TOKEN_ALREADY_USED`. -/
theorem submit_twice_sequential
    (db : DB) (voterId tokenId electionId candidateId : String)
    (nonce : Option String) (serverSig : String) (now : Nat)
    (v : Voter) (t : TokenDoc) (c : Candidate)
    (hv : db.voters.find? (fun w => w.voterId == voterId) = some v)
    (hvs : v.status = "active") (hvv : v.hasVoted = false)
    (ht : db.votingTokens.find? (fun u => u.tokenId == tokenId &&
        u.electionId == electionId) = some t)
    (hts : t.spent = false) (hte : tokenExpired t.expiresAt now = false)
    (htn : nonceMismatch nonce t.nonce = false)
    (hc : db.candidates.find? (fun d => d.electionId == electionId &&
        d.candidateId == candidateId && d.status == "active") = some c)
    (sig2 : String) (now2 : Nat) :
    (submitVote db voterId tokenId electionId candidateId nonce serverSig now).2
      = .ok { electionId := electionId, candidateId := candidateId } ∧
    (submitVote (submitVote db voterId tokenId electionId candidateId nonce serverSig now).1
        voterId tokenId electionId candidateId nonce sig2 now2).2
      = .error .ALREADY_VOTED ∧
    (∀ (voters : List Voter) (votingTokens : List TokenDoc) (votes : List VoteDoc)
       (tid : Nat) (sig : String) (n : Nat),
       (updateFirst (fun u => u._id == tid && !u.spent)
           (fun u => { u with spent := true, updatedAt := n }) votingTokens).2 = 0 →
       submitMutate voters votingTokens votes voterId tid electionId candidateId sig n
         = .error .TOKEN_ALREADY_USED) := by
  have h1 := submitVote_ok_of_valid db voterId tokenId electionId candidateId nonce
    serverSig now v t c hv hvs hvv ht hts hte htn hc
  refine ⟨by rw [h1], ?_, ?_⟩
  · rw [h1]
    have hv2 : ((updateFirst (fun w => w.voterId == voterId)
        (fun w => { w with hasVoted := true, updatedAt := now }) db.voters).1.find?
          (fun w => w.voterId == voterId))
        = some { v with hasVoted := true, updatedAt := now } := by
      apply find?_updateFirst _ _ _ _ hv
      simpa using List.find?_some hv
    unfold submitVote submitVoteTx submitValidate
    simp [hv2, hvs]
  · intro voters votingTokens votes tid sig n hzero
    unfold submitMutate
    simp [hzero]

/-- Witness for `submit_twice_sequential` at the concrete `sampleDb`. -/
theorem submit_twice_sequential_witness :
    (submitVote sampleDb "v1" "t1" "e1" "c1" (some "n1") "srv" 5).2
      = .ok { electionId := "e1", candidateId := "c1" } ∧
    (submitVote (submitVote sampleDb "v1" "t1" "e1" "c1" (some "n1") "srv" 5).1
        "v1" "t1" "e1" "c1" (some "n1") "srv2" 6).2
      = .error .ALREADY_VOTED ∧
    submitMutate [] [] [] "v1" 1 "e1" "c1" "srv" 6 = .error .TOKEN_ALREADY_USED :=
  have h := submit_twice_sequential sampleDb "v1" "t1" "e1" "c1" (some "n1") "srv" 5
    sampleVoter sampleToken sampleCandidate rfl rfl rfl rfl rfl rfl rfl rfl "srv2" 6
  ⟨h.1, h.2.1, h.2.2 [] [] [] 1 "srv" 6 rfl⟩

/-- Claim C3: every `submit` call that fails with a named failure kind —
including the kinds detected only at the conditional writes — leaves every
stored record unchanged: `withTransaction` aborts the transaction on a
thrown error, discarding the attempted writes, so the token stays unspent,
no vote document is inserted and the voter's `hasVoted` flag keeps its
value. -/
theorem submit_failure_no_mutation
    (db : DB) (voterId tokenId electionId candidateId : String)
    (nonce : Option String) (serverSig : String) (now : Nat) (e : SubmitError)
    (h : (submitVote db voterId tokenId electionId candidateId nonce serverSig now).2
      = .error e) :
    (submitVote db voterId tokenId electionId candidateId nonce serverSig now).1 = db := by
  unfold submitVote at h ⊢
  cases htx : submitVoteTx db voterId tokenId electionId candidateId nonce serverSig now with
  | error e2 => simp [htx]
  | ok p =>
    obtain ⟨db', r⟩ := p
    rw [htx] at h
    simp at h

/-- Witness for `submit_failure_no_mutation`: on the empty database the
call fails (`VOTER_NOT_FOUND`) and the state is untouched. -/
theorem submit_failure_no_mutation_witness :
    (submitVote emptyDb "v1" "t1" "e1" "c1" none "s" 5).1 = emptyDb :=
  submit_failure_no_mutation emptyDb "v1" "t1" "e1" "c1" none "s" 5 .VOTER_NOT_FOUND rfl

/-- Inversion of a successful `submit` call: its read phase passed on the
snapshot and the whole result has the committed shape. -/
theorem submitVote_ok_inv
    (db : DB) (voterId tokenId electionId candidateId : String)
    (nonce : Option String) (serverSig : String) (now : Nat) (r : SubmitOk)
    (h : (submitVote db voterId tokenId electionId candidateId nonce serverSig now).2
      = .ok r) :
    ∃ tid, submitValidate db.voters db.votingTokens db.candidates voterId tokenId
        electionId candidateId nonce now = .ok tid ∧
      submitVote db voterId tokenId electionId candidateId nonce serverSig now
        = ({ db with
              voters := (updateFirst (fun w => w.voterId == voterId)
                (fun w => { w with hasVoted := true, updatedAt := now }) db.voters).1
              votingTokens := (updateFirst (fun u => u._id == tid && !u.spent)
                (fun u => { u with spent := true, updatedAt := now }) db.votingTokens).1
              votes := db.votes ++ [mkVoteDoc electionId candidateId now serverSig] },
           .ok { electionId := electionId, candidateId := candidateId }) := by
  cases hval : submitValidate db.voters db.votingTokens db.candidates voterId tokenId
      electionId candidateId nonce now with
  | error e =>
    unfold submitVote submitVoteTx at h
    simp [hval] at h
  | ok tid =>
    refine ⟨tid, rfl, ?_⟩
    have hm := submitMutate_ok_of_validate_ok db.voters db.votingTokens db.candidates
      db.votes voterId tokenId electionId candidateId nonce serverSig now tid hval
    unfold submitVote submitVoteTx
    simp [hval, hm]

/-- Claim C2, as stated, fails on the code: the document inserted into
`votes` also carries `version: 1` and `meta: {}` (and the store assigns an
`_id`), so its field set is not exactly
`{electionId, candidateId, createdAt, serverSig}`. Concrete successful run
on `sampleDb` shown alongside. -/
theorem vote_insert_keys_cex :
    (submitVote sampleDb "v1" "t1" "e1" "c1" (some "n1") "srv3" 5).1.votes
      = [mkVoteDoc "e1" "c1" 5 "srv3"] ∧
    voteInsertKeys ≠ ["electionId", "candidateId", "createdAt", "serverSig"] ∧
    "version" ∈ voteInsertKeys ∧ "meta" ∈ voteInsertKeys :=
  ⟨rfl, by decide, by decide, by decide⟩

/-- Claim C2 (amended): for every successful `submit` call, the inserted
vote document's field set is exactly
`{electionId, candidateId, createdAt, serverSig, version, meta}` — the
spec's four fields (with the signature stored as `serverSig`) plus the
constant `version: 1` and empty `meta: {}` — and in particular it contains
no voter identifier and no token identifier; the document is built by
`mkVoteDoc` from the election, candidate, clock and random signature
alone. -/
theorem vote_record_unlinkable
    (db : DB) (voterId tokenId electionId candidateId : String)
    (nonce : Option String) (serverSig : String) (now : Nat) (r : SubmitOk)
    (h : (submitVote db voterId tokenId electionId candidateId nonce serverSig now).2
      = .ok r) :
    (submitVote db voterId tokenId electionId candidateId nonce serverSig now).1.votes
      = db.votes ++ [mkVoteDoc electionId candidateId now serverSig] ∧
    voteInsertKeys
      = ["electionId", "candidateId", "createdAt", "serverSig", "version", "meta"] ∧
    "voterId" ∉ voteInsertKeys ∧ "tokenId" ∉ voteInsertKeys := by
  obtain ⟨tid, -, hshape⟩ := submitVote_ok_inv db voterId tokenId electionId
    candidateId nonce serverSig now r h
  exact ⟨by rw [hshape], rfl, by decide, by decide⟩

/-- Witness for `vote_record_unlinkable` at the concrete `sampleDb`. -/
theorem vote_record_unlinkable_witness :
    (submitVote sampleDb "v1" "t1" "e1" "c1" (some "n1") "srv4" 5).1.votes
      = [mkVoteDoc "e1" "c1" 5 "srv4"] ∧
    voteInsertKeys
      = ["electionId", "candidateId", "createdAt", "serverSig", "version", "meta"] ∧
    "voterId" ∉ voteInsertKeys ∧ "tokenId" ∉ voteInsertKeys :=
  have h := vote_record_unlinkable sampleDb "v1" "t1" "e1" "c1" (some "n1") "srv4" 5
    { electionId := "e1", candidateId := "c1" } rfl
  ⟨h.1, h.2⟩

/-- Claim C6: a `submit` call naming a token whose `expiresAt` lies in the
past, made by an eligible active voter, with the token unspent, fails with
`TOKEN_EXPIRED`; and (redeemability) every successful `submit` consumed a
token that was unspent with `expiresAt` strictly after `now`. -/
theorem submit_token_expired
    (db : DB) (voterId tokenId electionId candidateId : String)
    (nonce : Option String) (serverSig : String) (now : Nat)
    (v : Voter) (t : TokenDoc)
    (hv : db.voters.find? (fun w => w.voterId == voterId) = some v)
    (hvs : v.status = "active") (hvv : v.hasVoted = false)
    (ht : db.votingTokens.find? (fun u => u.tokenId == tokenId &&
        u.electionId == electionId) = some t)
    (hts : t.spent = false) (e : Nat) (hexp : t.expiresAt = some e)
    (hpast : e < now) :
    (submitVote db voterId tokenId electionId candidateId nonce serverSig now).2
      = .error .TOKEN_EXPIRED ∧
    (∀ (db2 : DB) (sig2 : String) (r : SubmitOk),
       (submitVote db2 voterId tokenId electionId candidateId nonce sig2 now).2
         = .ok r →
       ∃ t2, db2.votingTokens.find? (fun u => u.tokenId == tokenId &&
           u.electionId == electionId) = some t2 ∧
         t2.spent = false ∧ ∀ e2, t2.expiresAt = some e2 → now < e2) := by
  constructor
  · have hle : e ≤ now := Nat.le_of_lt hpast
    unfold submitVote submitVoteTx submitValidate
    simp [hv, hvs, hvv, ht, hts, tokenExpired, hexp, hle]
  · intro db2 sig2 r hok
    obtain ⟨tid, hval, -⟩ := submitVote_ok_inv db2 voterId tokenId electionId
      candidateId nonce sig2 now r hok
    obtain ⟨v2, t2, c2, hv2, -, -, ht2, hts2, hte2, -, -, -⟩ :=
      submitValidate_ok_inv db2.voters db2.votingTokens db2.candidates voterId
        tokenId electionId candidateId nonce now tid hval
    refine ⟨t2, ht2, hts2, fun e2 he2 => ?_⟩
    unfold tokenExpired at hte2
    rw [he2] at hte2
    simpa using hte2

/-- Witness for `submit_token_expired`: `sampleDb`'s token expires at 1000,
so at `now = 2000` the otherwise valid call fails with `TOKEN_EXPIRED`. -/
theorem submit_token_expired_witness :
    (submitVote sampleDb "v1" "t1" "e1" "c1" (some "n1") "srv5" 2000).2
      = .error .TOKEN_EXPIRED :=
  (submit_token_expired sampleDb "v1" "t1" "e1" "c1" (some "n1") "srv5" 2000
    sampleVoter sampleToken rfl rfl rfl rfl rfl 1000 rfl (by decide)).1

/-- Claim C8, as stated, fails on the code: with the voter's `hasVoted`
true but election `e1` closed, `issue` fails with `ELECTION_NOT_OPEN` —
the election gate is checked before the voter — not with `ALREADY_VOTED`. -/
theorem hasVoted_issue_cex :
    (votedClosedDb.voters.find? (fun w => w.voterId == "v1")).map Voter.hasVoted
      = some true ∧
    issueToken votedClosedDb "v1" "e1" 0 "tk" "nn" 9 = .error .ELECTION_NOT_OPEN ∧
    IssueError.ELECTION_NOT_OPEN ≠ IssueError.ALREADY_VOTED :=
  ⟨rfl, rfl, by decide⟩

/-- Claim C8 (amended): once a voter's `hasVoted` is true, no subsequent
`issue` call and no subsequent `submit` call for that voter ever succeeds,
regardless of retries; the failure kind is `ALREADY_VOTED` whenever the
checks ordered before it pass (for `issue`: election open and voter
active; for `submit`: voter active). -/
theorem hasVoted_never_succeeds (db : DB) (voterId : String) (v : Voter)
    (hv : db.voters.find? (fun w => w.voterId == voterId) = some v)
    (hvoted : v.hasVoted = true) :
    (∀ (electionId : String) (now : Nat) (ftid fn : String) (fid : Nat),
       errorOf? (issueToken db voterId electionId now ftid fn fid) ≠ none ∧
       (isElectionOpen db.elections electionId = true → v.status = "active" →
         issueToken db voterId electionId now ftid fn fid = .error .ALREADY_VOTED)) ∧
    (∀ (tokenId electionId candidateId : String) (nonce : Option String)
       (sig : String) (now : Nat),
       errorOf? (submitVote db voterId tokenId electionId candidateId nonce sig now).2
         ≠ none ∧
       (v.status = "active" →
         (submitVote db voterId tokenId electionId candidateId nonce sig now).2
           = .error .ALREADY_VOTED)) := by
  constructor
  · intro electionId now ftid fn fid
    constructor
    · unfold issueToken
      rw [hv]
      repeat' split
      all_goals simp_all [errorOf?]
    · intro hopen hactive
      unfold issueToken
      rw [hv]
      simp [hopen, hactive, hvoted]
  · intro tokenId electionId candidateId nonce sig now
    constructor
    · unfold submitVote submitVoteTx submitValidate
      rw [hv]
      cases hst : v.status != "active" with
      | true => simp [hst, errorOf?]
      | false => simp [hst, hvoted, errorOf?]
    · intro hactive
      unfold submitVote submitVoteTx submitValidate
      rw [hv]
      simp [hactive, hvoted]

/-- Witness for `hasVoted_never_succeeds` at the concrete `votedDb`
(election open by default, voter active, `hasVoted = true`). -/
theorem hasVoted_never_succeeds_witness :
    errorOf? (issueToken votedDb "v1" "e1" 0 "tk" "nn" 9) ≠ none ∧
    issueToken votedDb "v1" "e1" 0 "tk" "nn" 9 = .error .ALREADY_VOTED ∧
    (submitVote votedDb "v1" "t1" "e1" "c1" none "s" 5).2 = .error .ALREADY_VOTED :=
  have h := hasVoted_never_succeeds votedDb "v1"
    { voterId := "v1", status := "active", hasVoted := true, updatedAt := 0 } rfl rfl
  ⟨(h.1 "e1" 0 "tk" "nn" 9).1, (h.1 "e1" 0 "tk" "nn" 9).2 rfl rfl,
   (h.2 "t1" "e1" "c1" none "s" 5).2 rfl⟩

/-- Claim C9: `submit` never consults the election's status — its result
and every collection it writes are independent of the `elections`
collection, which is only carried through; in particular, on a state where
all of `submit`'s own checks pass, redemption succeeds even though the
election record's status is `closed` (concrete run on `closedElectionDb`). -/
theorem submit_ignores_elections :
    (∀ (db : DB) (es : List Election) (voterId tokenId electionId candidateId : String)
       (nonce : Option String) (sig : String) (now : Nat),
       submitVote { db with elections := es } voterId tokenId electionId candidateId
           nonce sig now
         = ({ (submitVote db voterId tokenId electionId candidateId nonce sig now).1
                with elections := es },
            (submitVote db voterId tokenId electionId candidateId nonce sig now).2)) ∧
    closedElectionDb.elections = [{ electionId := "e1", status := "closed" }] ∧
    (submitVote closedElectionDb "v1" "t1" "e1" "c1" (some "n1") "srv6" 5).2
      = .ok { electionId := "e1", candidateId := "c1" } := by
  refine ⟨?_, rfl, rfl⟩
  intro db es voterId tokenId electionId candidateId nonce sig now
  cases db with
  | mk voters votingTokens candidates votes elections =>
    unfold submitVote submitVoteTx
    cases hval : submitValidate voters votingTokens candidates voterId tokenId
        electionId candidateId nonce now with
    | error e => simp [hval]
    | ok tid =>
      cases hmut : submitMutate voters votingTokens votes voterId tid electionId
          candidateId sig now with
      | error e => simp [hval, hmut]
      | ok p =>
        obtain ⟨⟨vs, ts, vo⟩, r⟩ := p
        simp [hval, hmut]

/-- Attempts strictly inside the live window only increment the counter:
folding further failures at times before `w` over a state whose row for
`key` has window end `w` adds one per attempt. -/
theorem loginFold_in_window (rest : List Nat) (l : List LoginAttemptDoc)
    (key : String) (fid did c cAt w : Nat)
    (hw : ∀ t ∈ rest, t < w)
    (hfind : l.find? (fun d => d.voterId == key)
      = some { _id := did, voterId := key, count := c,
               windowEndsAt := some w, createdAt := cAt }) :
    ((rest.foldl (fun s t => recordLoginFailure s key t fid) l).find?
        (fun d => d.voterId == key))
      = some { _id := did, voterId := key, count := c + rest.length,
               windowEndsAt := some w, createdAt := cAt } := by
  induction rest generalizing l c with
  | nil => simpa using hfind
  | cons t ts ih =>
    have hlt : t < w := hw t (List.mem_cons_self t ts)
    have hnot : ¬(w ≤ t) := Nat.not_le.mpr hlt
    have hstep : recordLoginFailure l key t fid
        = (updateFirst (fun d => d.voterId == key)
            (fun d => { d with count := d.count + 1 }) l).1 := by
      unfold recordLoginFailure
      simp [hfind, hnot]
    have hfind2 : ((updateFirst (fun d => d.voterId == key)
        (fun d => { d with count := d.count + 1 }) l).1.find?
          (fun d => d.voterId == key))
        = some { _id := did, voterId := key, count := c + 1,
                 windowEndsAt := some w, createdAt := cAt } := by
      have h2 := find?_updateFirst (fun d => d.voterId == key)
        (fun d => { d with count := d.count + 1 }) l _ hfind (by simp)
      simpa using h2
    have hrec := ih ((updateFirst (fun d => d.voterId == key)
        (fun d => { d with count := d.count + 1 }) l).1) (c + 1)
      (fun u hu => hw u (List.mem_cons_of_mem t hu)) hfind2
    rw [List.foldl_cons, hstep]
    have hlen : c + (t :: ts).length = c + 1 + ts.length := by
      simp only [List.length_cons]
      omega
    rw [hlen]
    exact hrec

/-- After a reset (absent row or lapsed window), the row for `key` holds
`count = 1` with window end `now + LOGIN_WINDOW_MS`. -/
theorem recordLoginFailure_reset (l : List LoginAttemptDoc) (key : String)
    (now fid : Nat)
    (hlapsed : match l.find? (fun d => d.voterId == key) with
      | none => True
      | some d => d.windowEndsAt = none ∨ ∃ w, d.windowEndsAt = some w ∧ w ≤ now) :
    ∃ d2, (recordLoginFailure l key now fid).find? (fun d => d.voterId == key)
        = some d2 ∧
      d2.count = 1 ∧ d2.windowEndsAt = some (now + LOGIN_WINDOW_MS) := by
  cases hfind : l.find? (fun d => d.voterId == key) with
  | none =>
    refine ⟨{ _id := fid
              voterId := key
              count := 1
              windowEndsAt := some (now + LOGIN_WINDOW_MS)
              createdAt := now }, ?_, rfl, rfl⟩
    unfold recordLoginFailure
    rw [hfind, updateFirst_of_find?_none _ _ _ hfind]
    simp [find?_append_of_none _ _ _ hfind]
  | some d =>
    rw [hfind] at hlapsed
    have hlb : (match d.windowEndsAt with
        | none => true
        | some w => decide (w ≤ now)) = true := by
      rcases hlapsed with h | ⟨w, hw, hle⟩
      · rw [h]
      · rw [hw]; simpa using hle
    refine ⟨{ d with
              voterId := key
              count := 1
              windowEndsAt := some (now + LOGIN_WINDOW_MS)
              createdAt := now }, ?_, rfl, rfl⟩
    have hsnd := updateFirst_snd_of_find?_some (fun d => d.voterId == key)
      (fun (d : LoginAttemptDoc) => { d with
        voterId := key
        count := 1
        windowEndsAt := some (now + LOGIN_WINDOW_MS)
        createdAt := now })
      l d hfind
    have hfu := find?_updateFirst (fun d => d.voterId == key)
      (fun (d : LoginAttemptDoc) => { d with
        voterId := key
        count := 1
        windowEndsAt := some (now + LOGIN_WINDOW_MS)
        createdAt := now })
      l d hfind (by simp)
    unfold recordLoginFailure
    rw [hfind]
    simp only [hlb, if_true, hsnd]
    simpa using hfu

/-- After a reset (absent row or lapsed window), the OTP row for `key`
holds `count = 1` with window end `now + OTP_WINDOW_MS`. -/
theorem sendOtp_reset (l : List OtpAttemptDoc) (key : String) (now fid : Nat)
    (hlapsed : match l.find? (fun d => d.phoneHash == key) with
      | none => True
      | some d => d.windowEndsAt = none ∨ ∃ w, d.windowEndsAt = some w ∧ w ≤ now) :
    ∃ d2, (sendOtp l key now fid).1.find? (fun d => d.phoneHash == key) = some d2 ∧
      d2.count = 1 ∧ d2.windowEndsAt = some (now + OTP_WINDOW_MS) := by
  have hreset : ∃ d2, (otpReset l key now fid).find? (fun d => d.phoneHash == key)
      = some d2 ∧ d2.count = 1 ∧ d2.windowEndsAt = some (now + OTP_WINDOW_MS) := by
    cases hfind : l.find? (fun d => d.phoneHash == key) with
    | none =>
      refine ⟨{ _id := fid
                phoneHash := key
                count := 1
                windowEndsAt := some (now + OTP_WINDOW_MS)
                createdAt := now }, ?_, rfl, rfl⟩
      unfold otpReset
      rw [updateFirst_of_find?_none _ _ _ hfind]
      simp [find?_append_of_none _ _ _ hfind]
    | some d =>
      refine ⟨{ d with
                phoneHash := key
                count := 1
                windowEndsAt := some (now + OTP_WINDOW_MS)
                createdAt := now }, ?_, rfl, rfl⟩
      have hsnd := updateFirst_snd_of_find?_some (fun d => d.phoneHash == key)
        (fun (d : OtpAttemptDoc) => { d with
          phoneHash := key
          count := 1
          windowEndsAt := some (now + OTP_WINDOW_MS)
          createdAt := now })
        l d hfind
      have hfu := find?_updateFirst (fun d => d.phoneHash == key)
        (fun (d : OtpAttemptDoc) => { d with
          phoneHash := key
          count := 1
          windowEndsAt := some (now + OTP_WINDOW_MS)
          createdAt := now })
        l d hfind (by simp)
      unfold otpReset
      simp only [hsnd, if_true]
      simpa using hfu
  cases hfind : l.find? (fun d => d.phoneHash == key) with
  | none =>
    unfold sendOtp
    simp only [hfind]
    exact hreset
  | some d =>
    rw [hfind] at hlapsed
    unfold sendOtp
    rcases hlapsed with h | ⟨w, hw, hle⟩
    · simp only [hfind, h]
      exact hreset
    · simp only [hfind, hw]
      rw [if_neg (Nat.not_lt.mpr hle)]
      exact hreset

/-- Claim C7: for every subject key, `K` recorded attempts made strictly
inside one window leave the stored counter's count equal to `K` (shown for
the login-failure counter: a first attempt at `t0` opens the window, the
remaining attempts before `t0 + LOGIN_WINDOW_MS` each increment by one);
and an attempt made at or after `windowEndsAt`, or when no record exists,
resets the record to `count = 1` with a fresh
`windowEndsAt = now + windowDuration` (shown for both the login counter
and the OTP counter, with their respective window durations). -/
theorem attempt_counter_correct :
    (∀ (l : List LoginAttemptDoc) (key : String) (t0 : Nat) (rest : List Nat)
       (fid : Nat),
       l.find? (fun d => d.voterId == key) = none →
       (∀ t ∈ rest, t < t0 + LOGIN_WINDOW_MS) →
       ((t0 :: rest).foldl (fun s t => recordLoginFailure s key t fid) l).find?
           (fun d => d.voterId == key)
         = some { _id := fid, voterId := key, count := rest.length + 1,
                  windowEndsAt := some (t0 + LOGIN_WINDOW_MS), createdAt := t0 }) ∧
    (∀ (l : List LoginAttemptDoc) (key : String) (now fid : Nat),
       (match l.find? (fun d => d.voterId == key) with
        | none => True
        | some d => d.windowEndsAt = none ∨ ∃ w, d.windowEndsAt = some w ∧ w ≤ now) →
       ∃ d2, (recordLoginFailure l key now fid).find? (fun d => d.voterId == key)
           = some d2 ∧
         d2.count = 1 ∧ d2.windowEndsAt = some (now + LOGIN_WINDOW_MS)) ∧
    (∀ (l : List OtpAttemptDoc) (key : String) (now fid : Nat),
       (match l.find? (fun d => d.phoneHash == key) with
        | none => True
        | some d => d.windowEndsAt = none ∨ ∃ w, d.windowEndsAt = some w ∧ w ≤ now) →
       ∃ d2, (sendOtp l key now fid).1.find? (fun d => d.phoneHash == key)
           = some d2 ∧
         d2.count = 1 ∧ d2.windowEndsAt = some (now + OTP_WINDOW_MS)) := by
  refine ⟨?_, recordLoginFailure_reset, sendOtp_reset⟩
  intro l key t0 rest fid hnone hw
  have h1 : recordLoginFailure l key t0 fid
      = l ++ [{ _id := fid
                voterId := key
                count := 1
                windowEndsAt := some (t0 + LOGIN_WINDOW_MS)
                createdAt := t0 }] := by
    unfold recordLoginFailure
    simp [hnone, updateFirst_of_find?_none _ _ _ hnone]
  have hfind1 : (l ++ [({ _id := fid
                          voterId := key
                          count := 1
                          windowEndsAt := some (t0 + LOGIN_WINDOW_MS)
                          createdAt := t0 } : LoginAttemptDoc)]).find?
        (fun d => d.voterId == key)
      = some { _id := fid
               voterId := key
               count := 1
               windowEndsAt := some (t0 + LOGIN_WINDOW_MS)
               createdAt := t0 } := by
    rw [find?_append_of_none _ _ _ hnone]
    simp
  rw [List.foldl_cons, h1]
  have hfold := loginFold_in_window rest
    (l ++ [{ _id := fid
             voterId := key
             count := 1
             windowEndsAt := some (t0 + LOGIN_WINDOW_MS)
             createdAt := t0 }])
    key fid fid 1 t0 (t0 + LOGIN_WINDOW_MS) hw hfind1
  have hc : 1 + rest.length = rest.length + 1 := Nat.add_comm 1 rest.length
  rw [hc] at hfold
  exact hfold

/-- Witness for `attempt_counter_correct`: three failures at 0, 10, 20
(all inside the 15-minute window opened at 0) leave the count at 3. -/
theorem attempt_counter_correct_witness :
    (([0, 10, 20] : List Nat).foldl
        (fun s t => recordLoginFailure s "v1" t 3) []).find?
        (fun d => d.voterId == "v1")
      = some { _id := 3, voterId := "v1", count := 3,
               windowEndsAt := some (0 + LOGIN_WINDOW_MS), createdAt := 0 } := by
  have h := attempt_counter_correct.1 [] "v1" 0 [10, 20] 3 rfl (by decide)
  simpa using h

/-- `otpReset` never writes a count above the per-window maximum. -/
theorem otpReset_count_le (l : List OtpAttemptDoc) (key : String) (now fid : Nat)
    (hl : ∀ d ∈ l, d.count ≤ OTP_MAX_PER_WINDOW) :
    ∀ d2 ∈ otpReset l key now fid, d2.count ≤ OTP_MAX_PER_WINDOW := by
  intro d2 hd2
  simp only [otpReset] at hd2
  split at hd2
  · rcases List.mem_append.mp hd2 with h | h
    · exact hl d2 h
    · rcases List.mem_singleton.mp h with rfl
      show (1 : Nat) ≤ OTP_MAX_PER_WINDOW
      decide
  · rcases mem_updateFirst _ _ _ _ hd2 with h | ⟨a, ha, hpa, rfl⟩
    · exact hl d2 h
    · show (1 : Nat) ≤ OTP_MAX_PER_WINDOW
      decide

/-- Claim C10: within a live OTP window the stored count for a `phoneHash`
never exceeds the per-window maximum of 10 — a send-OTP request arriving
while `count ≥ 10` returns `OTP_RATE_LIMITED` without touching the counter
and without generating an OTP, and every other path writes a count that
stays within the bound (the increment applies only to accepted requests). -/
theorem otp_rate_limit_cap (attempts : List OtpAttemptDoc) (key : String)
    (now fid : Nat) :
    (∀ d, attempts.find? (fun x => x.phoneHash == key) = some d →
       ∀ w, d.windowEndsAt = some w → now < w → OTP_MAX_PER_WINDOW ≤ d.count →
       sendOtp attempts key now fid = (attempts, .rateLimited)) ∧
    ((attempts.map (fun d => d._id)).Nodup →
     (∀ d ∈ attempts, d.count ≤ OTP_MAX_PER_WINDOW) →
     ∀ d2 ∈ (sendOtp attempts key now fid).1, d2.count ≤ OTP_MAX_PER_WINDOW) := by
  constructor
  · intro d hfind w hw hlt hcnt
    unfold sendOtp
    simp only [hfind, hw]
    rw [if_pos hlt, if_pos hcnt]
  · intro hnodup hle
    unfold sendOtp
    cases hfind : attempts.find? (fun d => d.phoneHash == key) with
    | none =>
      simp only [hfind]
      exact otpReset_count_le attempts key now fid hle
    | some ex =>
      simp only [hfind]
      cases hw : ex.windowEndsAt with
      | none =>
        simp only [hw]
        exact otpReset_count_le attempts key now fid hle
      | some w =>
        simp only [hw]
        by_cases hlt : now < w
        · rw [if_pos hlt]
          by_cases hcnt : OTP_MAX_PER_WINDOW ≤ ex.count
          · rw [if_pos hcnt]
            exact hle
          · rw [if_neg hcnt]
            intro d2 hd2
            rcases mem_updateFirst _ _ _ _ hd2 with h | ⟨a, ha, hpa, rfl⟩
            · exact hle d2 h
            · have hexmem : ex ∈ attempts := List.mem_of_find?_eq_some hfind
              have haeq : a = ex := by
                apply List.inj_on_of_nodup_map hnodup ha hexmem
                simpa using hpa
              subst haeq
              have : a.count < OTP_MAX_PER_WINDOW := Nat.not_le.mp hcnt
              simpa using this
        · rw [if_neg hlt]
          exact otpReset_count_le attempts key now fid hle

/-- A row already at the per-window maximum inside a live window. -/
def limitedOtpAttempts : List OtpAttemptDoc :=
  [{ _id := 7, phoneHash := "p1", count := 10, windowEndsAt := some 100,
     createdAt := 0 }]

/-- Witness for `otp_rate_limit_cap`: at `now = 50`, inside the window and
at the maximum, the request is rejected and the state untouched. -/
theorem otp_rate_limit_cap_witness :
    sendOtp limitedOtpAttempts "p1" 50 8 = (limitedOtpAttempts, .rateLimited) ∧
    (∀ d2 ∈ (sendOtp limitedOtpAttempts "p1" 50 8).1,
      d2.count ≤ OTP_MAX_PER_WINDOW) :=
  have h := otp_rate_limit_cap limitedOtpAttempts "p1" 50 8
  ⟨h.1 { _id := 7, phoneHash := "p1", count := 10, windowEndsAt := some 100,
         createdAt := 0 } rfl 100 rfl (by decide) (by decide),
   h.2 (by decide) (by decide)⟩

end EVote
